import Mathlib

/-
Verification of the Book catalog application (src/Book/models.py and the
form/view layer described by the specification).

The repository ships only `models.py` and `tests.py`; the `BookForm`
validator and the CRUD request handlers exist in the repository but are not
among the provided sources, so they are modelled here from the
specification's contract (sections 3, 4.2 and 9 of the spec), while the
`Book` record itself is embedded directly from `src/Book/models.py`.
-/

namespace BookApp

/-- A calendar date: year, month, day.  Used for the `publication_date`
field (`models.DateField` in src/Book/models.py line 7). -/
structure Date where
  year : Int
  month : Nat
  day : Nat
deriving DecidableEq

/-- Gregorian leap-year rule, used to decide calendar validity of a date. -/
def Date.isLeapYear (y : Int) : Bool :=
  (y % 4 == 0 && y % 100 != 0) || (y % 400 == 0)

/-- Number of days in a given month of a given year. -/
def Date.daysInMonth (y : Int) (m : Nat) : Nat :=
  if m == 2 then (if Date.isLeapYear y then 29 else 28)
  else if m == 4 || m == 6 || m == 9 || m == 11 then 30
  else 31

/-- A date is a valid calendar date when the month is 1..12 and the day
lies within that month's length for that year. -/
def Date.valid (d : Date) : Bool :=
  decide (1 ≤ d.month) && decide (d.month ≤ 12) &&
  decide (1 ≤ d.day) && decide (d.day ≤ Date.daysInMonth d.year d.month)

/-- Embeds class `Book` of src/Book/models.py (lines 4-8): fields
`title` and `author` (CharField, max_length 20), `publication_date`
(DateField) and `pages` (PositiveIntegerField).  `id` is the storage-layer
primary key Django adds implicitly. -/
structure Book where
  id : Nat
  title : String
  author : String
  publication_date : Date
  pages : Int
deriving DecidableEq

/-- Embeds `Book.__str__` of src/Book/models.py (lines 10-11): the
human-readable label of a book is its `title` field. -/
def Book.str (b : Book) : String :=
  b.title

/-- Upper bound of the framework positive-integer column that backs
`Book.pages` (`models.PositiveIntegerField()`, src/Book/models.py line 8):
values from 0 to 2147483647 fit the column. -/
def positiveIntegerFieldMax : Int := 2147483647

/-- Whether an integer fits the positive-integer storage column backing
`Book.pages`: non-negative and at most `positiveIntegerFieldMax`. -/
def pagesColumnAccepts (n : Int) : Bool :=
  decide (0 ≤ n) && decide (n ≤ positiveIntegerFieldMax)

/-- Modelled from the spec: a raw form field of the `BookForm` input
mapping (forms.py is not among the provided sources).  A field is either
absent from the mapping, present but failing to parse at the field's type,
or present with a parsed value. -/
inductive RawField (α : Type) where
  | missing
  | malformed
  | value (a : α)
deriving DecidableEq

/-- The parsed value of a raw field, with a fallback for the other cases. -/
def RawField.getD {α : Type} (v : RawField α) (dflt : α) : α :=
  match v with
  | .value a => a
  | _ => dflt

/-- Modelled from the spec: the input mapping handed to `BookForm`
(spec section 4.2), keys {title, author, publication_date, pages}.
Text fields are either absent (`none`) or carry a string; the date and
pages fields parse at their types via `RawField`. -/
structure BookFormData where
  title : Option String
  author : Option String
  publication_date : RawField Date
  pages : RawField Int
deriving DecidableEq

/-- The error message for a missing or empty required field. -/
def requiredMsg : String := "This field is required."

/-- The error message for a text field exceeding its maximum length. -/
def maxLengthMsg : String := "Ensure this value has at most 20 characters."

/-- The error message for a date that is absent of a valid calendar form. -/
def invalidDateMsg : String := "Enter a valid date."

/-- The error message for a pages value that is not an integer. -/
def invalidIntMsg : String := "Enter a whole number."

/-- The error message for a negative pages value. -/
def negativePagesMsg : String := "Ensure this value is greater than or equal to 0."

/-- Modelled from the spec: validation of a required text field with
maximum length 20 (spec section 4.2: required, empty/missing yields
"This field is required."; length at most 20, error if exceeded). -/
def validateCharField (v : Option String) : List String :=
  match v with
  | none => [requiredMsg]
  | some s =>
    if s = "" then [requiredMsg]
    else if 20 < s.length then [maxLengthMsg]
    else []

/-- Modelled from the spec: validation of the required `publication_date`
field; it must parse as a valid calendar date (spec section 4.2). -/
def validateDateField (v : RawField Date) : List String :=
  match v with
  | .missing => [requiredMsg]
  | .malformed => [invalidDateMsg]
  | .value d => if d.valid then [] else [invalidDateMsg]

/-- Modelled from the spec: validation of the required `pages` field; it
must be an integer and satisfy the non-negativity constraint (spec
section 4.2, and the open question resolving it as "reject negative,
accept zero or more"). -/
def validatePagesField (v : RawField Int) : List String :=
  match v with
  | .missing => [requiredMsg]
  | .malformed => [invalidIntMsg]
  | .value n => if n < 0 then [negativePagesMsg] else []

/-- The per-field error mapping returned by a failing validation
(spec section 4.2, output on failure). -/
structure FormErrors where
  title : List String
  author : List String
  publication_date : List String
  pages : List String
deriving DecidableEq

namespace BookForm

/-- Modelled from the spec: the full error mapping of `BookForm` on an
input; every field rule is evaluated independently (spec section 4.2:
all violations reported, not just the first). -/
def errors (d : BookFormData) : FormErrors :=
  { title := validateCharField d.title
  , author := validateCharField d.author
  , publication_date := validateDateField d.publication_date
  , pages := validatePagesField d.pages }

/-- Modelled from the spec: `BookForm.is_valid` holds exactly when no
field produced an error message. -/
def is_valid (d : BookFormData) : Bool :=
  (errors d).title.isEmpty && (errors d).author.isEmpty &&
  (errors d).publication_date.isEmpty && (errors d).pages.isEmpty

end BookForm

/-- The persisted collection of Book records (spec section 6: one logical
table of Book records keyed by a generated identifier). -/
abbrev BookDB := List Book

/-- Read-by-id over the stored collection (spec section 4.1). -/
def getBook (db : BookDB) (pk : Nat) : Option Book :=
  db.find? (fun b => b.id == pk)

/-- A fresh identifier for a newly inserted record: one more than the
largest identifier in use (spec: unique identifier assigned at creation
time, never reused). -/
def nextId (db : BookDB) : Nat :=
  (db.map (fun b => b.id)).foldr max 0 + 1

namespace BookForm

/-- Modelled from the spec: saving an unbound validated form inserts a new
record whose fields come from the cleaned input (spec section 4.2,
output on success: insert if unbound) and returns the persisted record. -/
def saveNew (db : BookDB) (d : BookFormData) : BookDB × Book :=
  let b : Book :=
    { id := nextId db
    , title := d.title.getD ""
    , author := d.author.getD ""
    , publication_date := d.publication_date.getD ⟨1970, 1, 1⟩
    , pages := d.pages.getD 0 }
  (db ++ [b], b)

/-- Modelled from the spec: the record obtained by overwriting all four
fields of an existing record with the cleaned form input, identifier
unchanged (spec section 3, lifecycle). -/
def overwrite (b : Book) (d : BookFormData) : Book :=
  { id := b.id
  , title := d.title.getD ""
  , author := d.author.getD ""
  , publication_date := d.publication_date.getD ⟨1970, 1, 1⟩
  , pages := d.pages.getD 0 }

/-- Modelled from the spec: saving a form bound to identifier `pk`
overwrites the record with that identifier and leaves the rest of the
collection unchanged (spec section 4.2: update if bound). -/
def saveBound (db : BookDB) (pk : Nat) (d : BookFormData) : BookDB :=
  db.map (fun b => if b.id == pk then overwrite b d else b)

end BookForm

/-- A not-found error, signalled when an identifier does not resolve
(spec section 7). -/
inductive CrudError where
  | notFound
deriving DecidableEq

/-- Modelled from the spec: deleting an identifier removes the record with
that identifier, and signals a not-found error when no record has it
(spec section 3, lifecycle). -/
def deleteBook (db : BookDB) (pk : Nat) : Except CrudError BookDB :=
  match getBook db pk with
  | none => .error .notFound
  | some _ => .ok (db.filter (fun b => !(b.id == pk)))

/-- Modelled from the spec: the create request handler validates the input
and persists only on success; on failure it returns the untouched
collection together with the error mapping (spec section 4.2, output on
failure: no persistence side effect). -/
def handleCreate (db : BookDB) (d : BookFormData) : BookDB × Option FormErrors :=
  if BookForm.is_valid d then ((BookForm.saveNew db d).1, none)
  else (db, some (BookForm.errors d))

/-- Persisting a record into the storage layer: the `pages` column rejects
values outside the positive-integer column range of
`models.PositiveIntegerField()` (src/Book/models.py line 8). -/
def persistBook (db : BookDB) (b : Book) : Except String BookDB :=
  if pagesColumnAccepts b.pages then .ok (db ++ [b])
  else .error "pages out of range for the positive-integer column"


/-- The empty input mapping: no key is present at all. -/
def emptyFormData : BookFormData :=
  { title := none, author := none
  , publication_date := RawField.missing, pages := RawField.missing }

/-- A fully valid concrete input, as in FormToSaveTest.test_form_save. -/
def validFormData : BookFormData :=
  { title := some "Valid Title", author := some "Valid Author"
  , publication_date := RawField.value ⟨2024, 5, 17⟩
  , pages := RawField.value 200 }

/-- A concrete input with a negative page count, as in
FormErrorMessages.test_form_is_invalid_with_incorrect_page_count. -/
def negPagesFormData : BookFormData :=
  { title := some "Title", author := some "Author"
  , publication_date := RawField.value ⟨2024, 5, 17⟩
  , pages := RawField.value (-10) }

/-- A concrete otherwise-valid input with zero pages. -/
def zeroPagesFormData : BookFormData :=
  { title := some "Title", author := some "Author"
  , publication_date := RawField.value ⟨2024, 5, 17⟩
  , pages := RawField.value 0 }

/-- A concrete input whose title and author both have 21 characters, as in
FormErrorMessages.test_field_max_length. -/
def longFormData : BookFormData :=
  { title := some "TTTTTTTTTTTTTTTTTTTTT", author := some "AAAAAAAAAAAAAAAAAAAAA"
  , publication_date := RawField.value ⟨2024, 5, 17⟩
  , pages := RawField.value 100 }

/-- A concrete stored record with identifier 1. -/
def demoBook1 : Book :=
  { id := 1, title := "Original Title", author := "Original Author"
  , publication_date := ⟨2024, 5, 17⟩, pages := 125 }

/-- A second concrete stored record with identifier 2. -/
def demoBook2 : Book :=
  { id := 2, title := "Other Title", author := "Other Author"
  , publication_date := ⟨2023, 1, 2⟩, pages := 99 }

/-- A concrete stored collection holding the two demo records. -/
def demoDB : BookDB := [demoBook1, demoBook2]

/-- A concrete valid update input, as in BookUpdateViewTest.test_update_book. -/
def updFormData : BookFormData :=
  { title := some "Updated Title", author := some "Updated Author"
  , publication_date := RawField.value ⟨2024, 5, 17⟩
  , pages := RawField.value 200 }

/-- C9: the human-readable label of a Book record (its string-conversion
operation, `Book.__str__`) equals its title field. -/
theorem book_str_eq_title (b : Book) : Book.str b = b.title := rfl

/-- C5: submitting the empty mapping fails validation, and the error list
under the key title is exactly the one-element list
["This field is required."]. -/
theorem empty_mapping_title_required :
    BookForm.is_valid emptyFormData = false ∧
    (BookForm.errors emptyFormData).title = ["This field is required."] :=
  ⟨rfl, rfl⟩

/-- C10: the storage column behind `pages` is bounded above by 2147483647,
so the non-negative input 2^31 is rejected at persistence even though it
satisfies the spec's only stated constraint of non-negativity. -/
theorem pages_upper_bound_2pow31 :
    (0 : Int) ≤ 2 ^ 31 ∧
    pagesColumnAccepts (2 ^ 31) = false ∧
    persistBook []
      { id := 1, title := "Big Book", author := "Author"
      , publication_date := ⟨2024, 5, 17⟩, pages := 2 ^ 31 } =
      Except.error "pages out of range for the positive-integer column" := by
  refine ⟨by norm_num, by decide, ?_⟩
  rfl

/-- C2: for every input whose pages value is an integer strictly below 0,
validation fails and the pages error list is non-empty. -/
theorem negative_pages_invalid (d : BookFormData) (n : Int)
    (hp : d.pages = RawField.value n) (hn : n < 0) :
    BookForm.is_valid d = false ∧ (BookForm.errors d).pages ≠ [] := by
  have hpv : validatePagesField d.pages = [negativePagesMsg] := by
    rw [hp]; simp [validatePagesField, hn]
  constructor
  · simp [BookForm.is_valid, BookForm.errors, hpv]
  · simp [BookForm.errors, hpv]

/-- Witness for C2 at the concrete input of the test suite (pages = -10). -/
theorem negative_pages_invalid_witness :
    BookForm.is_valid negPagesFormData = false ∧
    (BookForm.errors negPagesFormData).pages ≠ [] :=
  negative_pages_invalid negPagesFormData (-10) rfl (by decide)

/-- C3: an otherwise-valid input with pages equal to 0 validates
successfully: the validator rejects strictly negative page counts only. -/
theorem zero_pages_valid (d : BookFormData) (t a : String) (dt : Date)
    (ht : d.title = some t) (ht1 : t ≠ "") (ht2 : t.length ≤ 20)
    (ha : d.author = some a) (ha1 : a ≠ "") (ha2 : a.length ≤ 20)
    (hd : d.publication_date = RawField.value dt) (hd1 : dt.valid = true)
    (hp : d.pages = RawField.value 0) :
    BookForm.is_valid d = true := by
  have e1 : validateCharField d.title = [] := by
    rw [ht]; simp [validateCharField, ht1]
    omega
  have e2 : validateCharField d.author = [] := by
    rw [ha]; simp [validateCharField, ha1]
    omega
  have e3 : validateDateField d.publication_date = [] := by
    rw [hd]; simp [validateDateField, hd1]
  have e4 : validatePagesField d.pages = [] := by
    rw [hp]; simp [validatePagesField]
  simp [BookForm.is_valid, BookForm.errors, e1, e2, e3, e4]

/-- Witness for C3 at a concrete otherwise-valid input with pages = 0. -/
theorem zero_pages_valid_witness :
    BookForm.is_valid zeroPagesFormData = true :=
  zero_pages_valid zeroPagesFormData "Title" "Author" ⟨2024, 5, 17⟩
    rfl (by decide) (by decide) rfl (by decide) (by decide) rfl (by decide) rfl

/-- C8: on any input failing validation the create handler performs no
persistence side effect: the stored collection is returned unchanged,
together with the error mapping. -/
theorem invalid_no_side_effect (db : BookDB) (d : BookFormData)
    (h : BookForm.is_valid d = false) :
    (handleCreate db d).1 = db ∧
    (handleCreate db d).2 = some (BookForm.errors d) := by
  simp [handleCreate, h]

/-- Witness for C8 at the empty input mapping over the demo collection. -/
theorem invalid_no_side_effect_witness :
    (handleCreate demoDB emptyFormData).1 = demoDB ∧
    (handleCreate demoDB emptyFormData).2 = some (BookForm.errors emptyFormData) :=
  invalid_no_side_effect demoDB emptyFormData rfl

/-- C1: every input with non-empty title and author of at most 20
characters, a valid calendar date and a non-negative integer page count
validates successfully, and saving persists a record whose four fields
equal the input values. -/
theorem valid_input_validates_and_saves (db : BookDB) (d : BookFormData)
    (t a : String) (dt : Date) (n : Int)
    (ht : d.title = some t) (ht1 : t ≠ "") (ht2 : t.length ≤ 20)
    (ha : d.author = some a) (ha1 : a ≠ "") (ha2 : a.length ≤ 20)
    (hd : d.publication_date = RawField.value dt) (hd1 : dt.valid = true)
    (hp : d.pages = RawField.value n) (hn : 0 ≤ n) :
    BookForm.is_valid d = true ∧
    (BookForm.saveNew db d).2.title = t ∧
    (BookForm.saveNew db d).2.author = a ∧
    (BookForm.saveNew db d).2.publication_date = dt ∧
    (BookForm.saveNew db d).2.pages = n ∧
    (BookForm.saveNew db d).2 ∈ (BookForm.saveNew db d).1 := by
  have e1 : validateCharField d.title = [] := by
    rw [ht]; simp [validateCharField, ht1]
    omega
  have e2 : validateCharField d.author = [] := by
    rw [ha]; simp [validateCharField, ha1]
    omega
  have e3 : validateDateField d.publication_date = [] := by
    rw [hd]; simp [validateDateField, hd1]
  have e4 : validatePagesField d.pages = [] := by
    rw [hp]; simp [validatePagesField]
    omega
  refine ⟨by simp [BookForm.is_valid, BookForm.errors, e1, e2, e3, e4],
    ?_, ?_, ?_, ?_, ?_⟩
  · simp [BookForm.saveNew, ht]
  · simp [BookForm.saveNew, ha]
  · simp [BookForm.saveNew, hd, RawField.getD]
  · simp [BookForm.saveNew, hp, RawField.getD]
  · simp [BookForm.saveNew]

/-- Witness for C1 at the concrete valid input of the test suite. -/
theorem valid_input_validates_and_saves_witness :
    BookForm.is_valid validFormData = true ∧
    (BookForm.saveNew [] validFormData).2.title = "Valid Title" ∧
    (BookForm.saveNew [] validFormData).2.author = "Valid Author" ∧
    (BookForm.saveNew [] validFormData).2.publication_date = ⟨2024, 5, 17⟩ ∧
    (BookForm.saveNew [] validFormData).2.pages = 200 ∧
    (BookForm.saveNew [] validFormData).2 ∈ (BookForm.saveNew [] validFormData).1 :=
  valid_input_validates_and_saves [] validFormData "Valid Title" "Valid Author"
    ⟨2024, 5, 17⟩ 200 rfl (by decide) (by decide) rfl (by decide) (by decide)
    rfl (by decide) rfl (by decide)

/-- C4: an input whose title exceeds 20 characters fails validation with a
non-empty title error list, and the author rule is evaluated
independently: an author exceeding 20 characters in the same submission
also carries a non-empty author error list. -/
theorem long_title_invalid (d : BookFormData) (t : String)
    (ht : d.title = some t) (hlen : 20 < t.length) :
    BookForm.is_valid d = false ∧
    (BookForm.errors d).title ≠ [] ∧
    (∀ a : String, d.author = some a → 20 < a.length →
      (BookForm.errors d).author ≠ []) := by
  have hne : t ≠ "" := by
    intro h
    rw [h] at hlen
    exact absurd hlen (by decide)
  have e1 : validateCharField d.title = [maxLengthMsg] := by
    rw [ht]; simp [validateCharField, hne, hlen]
  refine ⟨?_, ?_, ?_⟩
  · simp [BookForm.is_valid, BookForm.errors, e1]
  · simp [BookForm.errors, e1]
  · intro a haa hal
    have hane : a ≠ "" := by
      intro h
      rw [h] at hal
      exact absurd hal (by decide)
    have e2 : validateCharField d.author = [maxLengthMsg] := by
      rw [haa]; simp [validateCharField, hane, hal]
    simp [BookForm.errors, e2]

/-- Witness for C4 at the concrete input of the test suite: title and
author both 21 characters long. -/
theorem long_title_invalid_witness :
    BookForm.is_valid longFormData = false ∧
    (BookForm.errors longFormData).title ≠ [] ∧
    (BookForm.errors longFormData).author ≠ [] := by
  have h := long_title_invalid longFormData "TTTTTTTTTTTTTTTTTTTTT" rfl (by decide)
  exact ⟨h.1, h.2.1, h.2.2 "AAAAAAAAAAAAAAAAAAAAA" rfl (by decide)⟩

/-- Looking up the bound identifier after a bound save returns the
overwritten record (helper for the update frame property). -/
theorem getBook_saveBound (db : BookDB) (pk : Nat) (d : BookFormData) :
    getBook (BookForm.saveBound db pk d) pk =
      (getBook db pk).map (fun b => BookForm.overwrite b d) := by
  induction db with
  | nil => rfl
  | cons b bs ih =>
    by_cases h : b.id = pk
    · simp [BookForm.saveBound, getBook, List.find?_cons, h, BookForm.overwrite]
    · simp [BookForm.saveBound, getBook, List.find?_cons, h] at ih ⊢
      exact ih

/-- C6: saving a valid update form bound to an existing identifier
overwrites all four fields of exactly the bound record, keeps its
identifier, and leaves every other record of the collection unchanged. -/
theorem update_overwrites_exactly_bound (db : BookDB) (pk : Nat)
    (d : BookFormData) (b0 : Book)
    (_hvalid : BookForm.is_valid d = true)
    (hfound : getBook db pk = some b0) :
    getBook (BookForm.saveBound db pk d) pk = some (BookForm.overwrite b0 d) ∧
    (BookForm.overwrite b0 d).id = b0.id ∧
    (BookForm.saveBound db pk d).length = db.length ∧
    (∀ b, b ∈ db → b.id ≠ pk → b ∈ BookForm.saveBound db pk d) ∧
    (∀ b, b ∈ BookForm.saveBound db pk d → b.id ≠ pk → b ∈ db) ∧
    (∀ t, d.title = some t → (BookForm.overwrite b0 d).title = t) ∧
    (∀ a, d.author = some a → (BookForm.overwrite b0 d).author = a) ∧
    (∀ dt, d.publication_date = RawField.value dt →
      (BookForm.overwrite b0 d).publication_date = dt) ∧
    (∀ n, d.pages = RawField.value n → (BookForm.overwrite b0 d).pages = n) := by
  refine ⟨?_, rfl, ?_, ?_, ?_, ?_, ?_, ?_, ?_⟩
  · rw [getBook_saveBound, hfound]; rfl
  · simp [BookForm.saveBound]
  · intro b hb hne
    have hfb : (fun x => if x.id == pk then BookForm.overwrite x d else x) b = b := by
      simp [hne]
    have hm := List.mem_map_of_mem
      (fun x => if x.id == pk then BookForm.overwrite x d else x) hb
    rw [hfb] at hm
    exact hm
  · intro b hb hne
    simp only [BookForm.saveBound, List.mem_map] at hb
    obtain ⟨x, hx, hfx⟩ := hb
    by_cases h : x.id = pk
    · exfalso
      apply hne
      rw [← hfx]
      simp [h, BookForm.overwrite]
    · rw [if_neg (by simpa using h)] at hfx
      rwa [← hfx]
  · intro t0 ht0
    simp [BookForm.overwrite, ht0]
  · intro a0 ha0
    simp [BookForm.overwrite, ha0]
  · intro dt0 hd0
    simp [BookForm.overwrite, hd0, RawField.getD]
  · intro n0 hp0
    simp [BookForm.overwrite, hp0, RawField.getD]

/-- Witness for C6 at the concrete update of the test suite: record 1 of
the two-record demo collection is overwritten, record 2 survives. -/
theorem update_overwrites_exactly_bound_witness :
    getBook (BookForm.saveBound demoDB 1 updFormData) 1 =
      some (BookForm.overwrite demoBook1 updFormData) ∧
    (BookForm.overwrite demoBook1 updFormData).id = demoBook1.id ∧
    (BookForm.overwrite demoBook1 updFormData).title = "Updated Title" ∧
    demoBook2 ∈ BookForm.saveBound demoDB 1 updFormData := by
  have h := update_overwrites_exactly_bound demoDB 1 updFormData demoBook1
    (by decide) (by rfl)
  exact ⟨h.1, h.2.1, h.2.2.2.2.2.1 "Updated Title" rfl,
    h.2.2.2.1 demoBook2 (by simp [demoDB]) (by decide)⟩

/-- Looking up the removed identifier after a delete returns nothing
(helper for the delete property). -/
theorem getBook_filter_out (db : BookDB) (pk : Nat) :
    getBook (db.filter (fun b => !(b.id == pk))) pk = none := by
  simp [getBook, List.find?_eq_none, List.mem_filter]

/-- C7: deleting an existing identifier succeeds, after which reading that
identifier yields nothing while every other record survives unchanged;
deleting an identifier that does not resolve signals a not-found error. -/
theorem delete_then_read_not_found (db : BookDB) (pk : Nat) :
    (∀ b0, getBook db pk = some b0 →
      ∃ db', deleteBook db pk = Except.ok db' ∧
        getBook db' pk = none ∧
        (∀ b, b ∈ db → b.id ≠ pk → b ∈ db') ∧
        (∀ b, b ∈ db' → b ∈ db ∧ b.id ≠ pk)) ∧
    (getBook db pk = none →
      deleteBook db pk = Except.error CrudError.notFound) := by
  constructor
  · intro b0 h0
    refine ⟨db.filter (fun b => !(b.id == pk)), ?_,
      getBook_filter_out db pk, ?_, ?_⟩
    · simp [deleteBook, h0]
    · intro b hb hne
      simp [List.mem_filter, hb, hne]
    · intro b hb
      simp only [List.mem_filter, Bool.not_eq_true', beq_eq_false_iff_ne] at hb
      exact hb
  · intro h
    simp [deleteBook, h]

/-- Witness for C7 over the demo collection: deleting identifier 1 leaves
only record 2, and a second delete of an absent identifier fails. -/
theorem delete_then_read_not_found_witness :
    deleteBook demoDB 1 = Except.ok [demoBook2] ∧
    getBook [demoBook2] 1 = none ∧
    deleteBook [demoBook2] 1 = Except.error CrudError.notFound := by
  obtain ⟨db', hok, -, -, -⟩ :=
    (delete_then_read_not_found demoDB 1).1 demoBook1 (by rfl)
  have herr := (delete_then_read_not_found [demoBook2] 1).2 (by rfl)
  exact ⟨by rfl, by rfl, herr⟩

end BookApp
